import Mathlib

/-!
Shallow embedding of the llama-swap manager backend (src/main.py):
the configuration store (`load_config`, `save_config`, `backup_config`),
the command synthesizer (`build_model_command`), the model registry
operations (`add_model_config`, `remove_model_config`) and the activity
log (`log_activity`, `clear_logs`).

Modelling conventions:
* Python `int` is `Int`; `float` fields of `ModelConfig` are kept as the
  string Python prints for them (only their textual rendering is ever
  used, in f-string interpolation), so the defaults `0.7`, `0.95`,
  `1.10` become `"0.7"`, `"0.95"`, `"1.1"` (Python `str(1.10)`).
* Wall-clock readings (`datetime.now().strftime(...)`) are threaded in
  as explicit string parameters (`tsFull` for `%Y%m%d-%H%M%S`, `tsClock`
  for `%H:%M:%S`); no claim depends on their value.
* The filesystem state relevant to the claims is `SysState`: the config
  file (absent, parseable, parsing to an empty/falsy value, or invalid
  YAML), the `backups/` directory as an association list keyed by file
  name (writing to an existing name overwrites, as `shutil.copy2`
  does), and the in-memory `activity_logs` list.
* `yaml.dump` followed by `yaml.safe_load` is modelled as the identity
  on documents, so a saved document is stored as `FileContent.doc`.
-/

/-- Python truthiness of an `Optional[int]` value: `None` and `0` are falsy. -/
def pyTruthyInt : Option Int → Bool
  | some n => n != 0
  | none => false

/-- Python truthiness of an `Optional[str]` value: `None` and `""` are falsy. -/
def pyTruthyStr : Option String → Bool
  | some s => !(s == "")
  | none => false

/-- Python truthiness of an `Optional[List[str]]` value: `None` and `[]` are falsy. -/
def pyTruthyList : Option (List String) → Bool
  | some l => !l.isEmpty
  | none => false

/-- Python `str.strip()`: drops whitespace from both ends (modelled on
character lists so that it evaluates by kernel reduction). -/
def pyStrip (s : String) : String :=
  ⟨((s.data.dropWhile Char.isWhitespace).reverse.dropWhile Char.isWhitespace).reverse⟩

/-- Python `dict` assignment `m[k] = v` on an insertion-ordered mapping
represented as an association list: an existing key keeps its position
and gets the new value, a new key is appended at the end. -/
def dictUpsert {α : Type} (m : List (String × α)) (k : String) (v : α) : List (String × α) :=
  if m.any (fun p => p.1 == k) then
    m.map (fun p => if p.1 == k then (k, v) else p)
  else
    m ++ [(k, v)]

/-- One entry of the persisted `models` mapping: `{"cmd": ..., "aliases"?: ...}`
as written by `add_model_config`. -/
structure LaunchEntry where
  cmd : String
  aliases : Option (List String) := none
deriving DecidableEq, Repr

/-- The parsed configuration document `{"models": {...}}`, with the
`models` mapping kept in insertion order as Python dicts do. -/
structure ConfigDoc where
  models : List (String × LaunchEntry)
deriving DecidableEq, Repr

/-- What the bytes of the configuration file parse to:
a document, an empty/falsy YAML value (`yaml.safe_load` returns `None`),
or invalid YAML (`yaml.safe_load` raises). -/
inductive FileContent where
  | doc (d : ConfigDoc)
  | empty
  | invalid
deriving DecidableEq, Repr

/-- The state touched by the configuration subsystem: the config file at
`settings.config_path` (`none` when the file does not exist), the
`backups/` directory (file name to file content, overwriting on name
collisions), and the in-memory `activity_logs` list. -/
structure SysState where
  configFile : Option FileContent := none
  backups : List (String × FileContent) := []
  logs : List String := []
deriving DecidableEq, Repr

/-- `log_activity` (src/main.py:118-127): appends `"<HH:MM:SS> <message>"`
and, when the list then exceeds 1000 entries, keeps only the last 1000
(`activity_logs[:] = activity_logs[-1000:]`). -/
def log_activity (tsClock message : String) (logs : List String) : List String :=
  let logs1 := logs ++ [tsClock ++ " " ++ message]
  if logs1.length > 1000 then logs1.drop (logs1.length - 1000) else logs1

/-- `load_config` (src/main.py:140-149): returns the parsed file when it
exists and parses; on a missing file, a falsy parse result
(`yaml.safe_load(f) or {"models": {}}`) or a parse error (the
`except Exception` branch) it returns the empty document. -/
def load_config (st : SysState) : ConfigDoc :=
  match st.configFile with
  | some (FileContent.doc d) => d
  | some FileContent.empty => { models := [] }
  | some FileContent.invalid => { models := [] }
  | none => { models := [] }

/-- `save_config` (src/main.py:151-166): when a config file exists, first
copies it verbatim (`shutil.copy2`) to
`backups/config-backup-<YYYYMMDD-HHMMSS>.yaml` and logs the backup; then
writes the new document to the config file and logs success. -/
def save_config (tsFull tsClock : String) (config : ConfigDoc) (st : SysState) : SysState :=
  let st1 :=
    match st.configFile with
    | some prior =>
      let backup_name := "config-backup-" ++ tsFull ++ ".yaml"
      { st with
        backups := dictUpsert st.backups backup_name prior
        logs := log_activity tsClock ("Config backed up to " ++ backup_name) st.logs }
    | none => st
  { st1 with
    configFile := some (FileContent.doc config)
    logs := log_activity tsClock "Configuration saved successfully" st1.logs }

/-- The `ModelConfig` pydantic model (src/main.py:65-81) with its field
defaults. Float-valued fields are carried as the string Python renders
for them. -/
structure ModelConfig where
  name : String
  file_path : String
  ngl : Int := 99
  ctx : Int := 4096
  batch : Int := 2048
  threads : Option Int := none
  temp : String := "0.7"
  top_p : String := "0.95"
  top_k : Int := 40
  repeat_penalty : String := "1.1"
  ubatch : Int := 512
  mlock : Bool := false
  numa : Option String := none
  flash_attn : Bool := false
  aliases : Option (List String) := none
  advanced : Option String := none
deriving DecidableEq, Repr

/-- The `cmd_parts` list built by `build_model_command`
(src/main.py:168-203) before the final `" ".join(cmd_parts)`. -/
def build_model_parts (config : ModelConfig) : List String :=
  let cmd_parts : List String :=
    ["/app/llama-server",
     "-m " ++ config.file_path,
     "-ngl " ++ toString config.ngl,
     "-c " ++ toString config.ctx,
     "-b " ++ toString config.batch]
  let cmd_parts :=
    if pyTruthyInt config.threads then
      cmd_parts ++ ["-t " ++ toString (config.threads.getD 0)]
    else cmd_parts
  let cmd_parts := cmd_parts ++
    ["-ub " ++ toString config.ubatch,
     "--temp " ++ config.temp,
     "--top-p " ++ config.top_p,
     "--top-k " ++ toString config.top_k,
     "--repeat-penalty " ++ config.repeat_penalty]
  let cmd_parts := if config.mlock then cmd_parts ++ ["--mlock"] else cmd_parts
  let cmd_parts :=
    if pyTruthyStr config.numa then cmd_parts ++ [config.numa.getD ""] else cmd_parts
  let cmd_parts := if config.flash_attn then cmd_parts ++ ["--flash-attn"] else cmd_parts
  let cmd_parts :=
    if pyTruthyStr config.advanced then
      cmd_parts ++ [pyStrip (config.advanced.getD "")]
    else cmd_parts
  cmd_parts ++ ["--port $\x7bPORT\x7d", "--host 0.0.0.0"]

/-- `build_model_command` (src/main.py:168-203): `" ".join(cmd_parts)`. -/
def build_model_command (config : ModelConfig) : String :=
  String.intercalate " " (build_model_parts config)

/-- `add_model_config` (src/main.py:228-249): loads the document, builds
the command, stores `{"cmd": ..., "aliases"?: ...}` under `model.name`,
saves, and logs. -/
def add_model_config (model : ModelConfig) (tsFull tsClock : String) (st : SysState) : SysState :=
  let config := load_config st
  let model_cmd := build_model_command model
  let entry : LaunchEntry :=
    { cmd := model_cmd
      aliases := if pyTruthyList model.aliases then model.aliases else none }
  let config1 : ConfigDoc := { models := dictUpsert config.models model.name entry }
  let st1 := save_config tsFull tsClock config1 st
  { st1 with logs := log_activity tsClock ("Added model configuration: " ++ model.name) st1.logs }

/-- `remove_model_config` (src/main.py:251-270): 404 (and no state
change) when the name is absent from the loaded document's `models`
mapping; otherwise deletes exactly that key, saves and logs. The
second component is the HTTP error status, if any. -/
def remove_model_config (model_name tsFull tsClock : String) (st : SysState) :
    SysState × Option Nat :=
  let config := load_config st
  if config.models.any (fun p => p.1 == model_name) then
    let config1 : ConfigDoc := { models := config.models.filter (fun p => !(p.1 == model_name)) }
    let st1 := save_config tsFull tsClock config1 st
    ({ st1 with logs := log_activity tsClock ("Removed model configuration: " ++ model_name) st1.logs },
     none)
  else
    (st, some 404)

/-- `backup_config` (src/main.py:283-304): when the config file is
absent the handler raises `HTTPException(404)` *inside* its `try`
block, and the handler's own `except Exception` clause (there is no
`except HTTPException: raise` here, unlike the sibling handlers)
catches it and re-raises `HTTPException(500, detail=str(e))`, so the
endpoint answers 500; when the file exists its raw bytes are streamed
back unchanged. -/
def backup_config (st : SysState) : Except Nat FileContent :=
  match st.configFile with
  | none => Except.error 500
  | some content => Except.ok content

/-- `clear_logs` (src/main.py:563-568): `activity_logs.clear()` followed
by `log_activity("Logs cleared by user")`. -/
def clear_logs (tsClock : String) (st : SysState) : SysState :=
  { st with logs := log_activity tsClock "Logs cleared by user" [] }

/-- Lookup of one model entry in a document, Python `config["models"].get(name)`. -/
def lookupModel (d : ConfigDoc) (k : String) : Option LaunchEntry :=
  (d.models.find? (fun p => p.1 == k)).map (fun p => p.2)

/-- Substring test on character lists, by scanning every tail. -/
def listContains (pat : List Char) : List Char → Bool
  | [] => pat.isEmpty
  | c :: t => pat.isPrefixOf (c :: t) || listContains pat t

/-- `pat` occurs as a substring of `s`. -/
def strContains (s pat : String) : Bool :=
  listContains pat.data s.data

/-- `s` ends with `pat`. -/
def strEndsWith (s pat : String) : Bool :=
  pat.data.isSuffixOf s.data

/-! ### Helper lemmas -/

/-- The parts list, with each conditional segment distributed out. -/
theorem build_model_parts_eq (c : ModelConfig) :
    build_model_parts c =
      ["/app/llama-server", "-m " ++ c.file_path, "-ngl " ++ toString c.ngl,
       "-c " ++ toString c.ctx, "-b " ++ toString c.batch] ++
      (if pyTruthyInt c.threads then ["-t " ++ toString (c.threads.getD 0)] else []) ++
      ["-ub " ++ toString c.ubatch, "--temp " ++ c.temp, "--top-p " ++ c.top_p,
       "--top-k " ++ toString c.top_k, "--repeat-penalty " ++ c.repeat_penalty] ++
      (if c.mlock then ["--mlock"] else []) ++
      (if pyTruthyStr c.numa then [c.numa.getD ""] else []) ++
      (if c.flash_attn then ["--flash-attn"] else []) ++
      (if pyTruthyStr c.advanced then [pyStrip (c.advanced.getD "")] else []) ++
      ["--port $\x7bPORT\x7d", "--host 0.0.0.0"] := by
  unfold build_model_parts
  by_cases h1 : pyTruthyInt c.threads <;>
  by_cases h2 : c.mlock <;>
  by_cases h3 : pyTruthyStr c.numa <;>
  by_cases h4 : c.flash_attn <;>
  by_cases h5 : pyTruthyStr c.advanced <;>
  simp [h1, h2, h3, h4, h5]

theorem intercalate_go_data (s : String) (l : List String) (acc : String) :
    (String.intercalate.go acc s l).data =
      acc.data ++ (l.map (fun x => s.data ++ x.data)).flatten := by
  induction l generalizing acc with
  | nil => simp [String.intercalate.go]
  | cons a as ih => simp [String.intercalate.go, ih, List.append_assoc]

theorem intercalate_data (s a : String) (l : List String) :
    (String.intercalate s (a :: l)).data =
      a.data ++ (l.map (fun x => s.data ++ x.data)).flatten := by
  simp [String.intercalate, intercalate_go_data]

/-- Joining `x :: l ++ [a, b]` with spaces ends with `a ++ " " ++ b`. -/
theorem strEndsWith_intercalate (x a b : String) (l : List String) :
    strEndsWith (String.intercalate " " (x :: (l ++ [a, b]))) (a ++ " " ++ b) = true := by
  unfold strEndsWith
  have h : (a ++ " " ++ b).data <:+ (String.intercalate " " (x :: (l ++ [a, b]))).data := by
    refine ⟨x.data ++ (l.map (fun y => " ".data ++ y.data)).flatten ++ " ".data, ?_⟩
    rw [intercalate_data]
    simp [List.append_assoc]
  simpa using h

theorem find?_replace_of_any {α : Type} (k : String) (v : α) :
    ∀ (m : List (String × α)), m.any (fun p => p.1 == k) = true →
      (m.map (fun p => if p.1 == k then (k, v) else p)).find? (fun p => p.1 == k) = some (k, v)
  | [], h => by simp at h
  | p :: t, h => by
    rw [List.map_cons]
    by_cases hp : (p.1 == k) = true
    · rw [if_pos hp]
      exact List.find?_cons_of_pos _ (beq_self_eq_true k)
    · have ht : t.any (fun p => p.1 == k) = true := by
        simp only [List.any_cons] at h
        rcases Bool.or_eq_true_iff.mp h with h1 | h2
        · exact absurd h1 hp
        · exact h2
      rw [if_neg hp,
        @List.find?_cons_of_neg (String × α) (fun q => q.1 == k) p
          (t.map (fun q => if q.1 == k then (k, v) else q)) hp]
      exact find?_replace_of_any k v t ht

theorem find?_append_single {α : Type} (k : String) (v : α) :
    ∀ (m : List (String × α)), m.any (fun p => p.1 == k) = false →
      (m ++ [(k, v)]).find? (fun p => p.1 == k) = some (k, v)
  | [], _ => by
    rw [List.nil_append]
    exact List.find?_cons_of_pos _ (beq_self_eq_true k)
  | p :: t, h => by
    rw [List.cons_append]
    simp only [List.any_cons, Bool.or_eq_false_iff] at h
    rw [List.find?_cons_of_neg _ (by rw [h.1]; exact Bool.false_ne_true)]
    exact find?_append_single k v t h.2

theorem find?_dictUpsert {α : Type} (m : List (String × α)) (k : String) (v : α) :
    (dictUpsert m k v).find? (fun p => p.1 == k) = some (k, v) := by
  unfold dictUpsert
  by_cases h : m.any (fun p => p.1 == k) = true
  · rw [if_pos h]
    exact find?_replace_of_any k v m h
  · rw [if_neg h]
    exact find?_append_single k v m (Bool.eq_false_iff.mpr h)

theorem any_dictUpsert {α : Type} (m : List (String × α)) (k : String) (v : α) :
    (dictUpsert m k v).any (fun p => p.1 == k) = true := by
  have hmem : (k, v) ∈ dictUpsert m k v :=
    List.mem_of_find?_eq_some (find?_dictUpsert m k v)
  exact List.any_eq_true.mpr ⟨(k, v), hmem, beq_self_eq_true k⟩

theorem map_replace_self {α : Type} (k : String) (v : α) (m : List (String × α)) :
    (m.map (fun p => if p.1 == k then (k, v) else p)).map
        (fun p => if p.1 == k then (k, v) else p)
      = m.map (fun p => if p.1 == k then (k, v) else p) := by
  induction m with
  | nil => rfl
  | cons p t ih =>
    rw [List.map_cons]
    by_cases hp : (p.1 == k) = true
    · rw [if_pos hp, List.map_cons, if_pos (beq_self_eq_true k), ih]
    · rw [if_neg hp, List.map_cons, if_neg hp, ih]

theorem map_replace_of_not_any {α : Type} (k : String) (v : α) (m : List (String × α))
    (h : m.any (fun p => p.1 == k) = false) :
    m.map (fun p => if p.1 == k then (k, v) else p) = m := by
  induction m with
  | nil => rfl
  | cons p t ih =>
    simp only [List.any_cons, Bool.or_eq_false_iff] at h
    rw [List.map_cons, if_neg (by rw [h.1]; exact Bool.false_ne_true), ih h.2]

theorem dictUpsert_idem {α : Type} (m : List (String × α)) (k : String) (v : α) :
    dictUpsert (dictUpsert m k v) k v = dictUpsert m k v := by
  by_cases h : m.any (fun p => p.1 == k) = true
  · have hinner : dictUpsert m k v = m.map (fun p => if p.1 == k then (k, v) else p) := by
      unfold dictUpsert
      rw [if_pos h]
    have hany2 := any_dictUpsert m k v
    rw [hinner] at hany2
    rw [hinner]
    unfold dictUpsert
    rw [if_pos hany2]
    exact map_replace_self k v m
  · have hinner : dictUpsert m k v = m ++ [(k, v)] := by
      unfold dictUpsert
      rw [if_neg h]
    have hany2 := any_dictUpsert m k v
    rw [hinner] at hany2
    rw [hinner]
    unfold dictUpsert
    rw [if_pos hany2, List.map_append,
      map_replace_of_not_any k v m (Bool.eq_false_iff.mpr h),
      List.map_cons, List.map_nil, if_pos (beq_self_eq_true k)]

theorem log_activity_length_le (tsClock msg : String) (logs : List String) :
    (log_activity tsClock msg logs).length ≤ 1000 := by
  unfold log_activity
  by_cases h : (logs ++ [tsClock ++ " " ++ msg]).length > 1000
  · rw [if_pos h]
    simp only [List.length_drop]
    omega
  · rw [if_neg h]
    omega

theorem log_activity_eq_drop (tsClock msg : String) (logs : List String) :
    ∃ k, log_activity tsClock msg logs = logs.drop k ++ [tsClock ++ " " ++ msg] := by
  unfold log_activity
  by_cases h : (logs ++ [tsClock ++ " " ++ msg]).length > 1000
  · refine ⟨(logs ++ [tsClock ++ " " ++ msg]).length - 1000, ?_⟩
    rw [if_pos h]
    rw [List.drop_append_of_le_length
      (by simp only [List.length_append, List.length_singleton] at h ⊢; omega)]
  · exact ⟨0, by rw [if_neg h, List.drop_zero]⟩

/-- Loading right after an add yields exactly the updated document. -/
theorem load_config_add (m : ModelConfig) (tsFull tsClock : String) (st : SysState) :
    load_config (add_model_config m tsFull tsClock st) =
      { models := dictUpsert (load_config st).models m.name
          { cmd := build_model_command m
            aliases := if pyTruthyList m.aliases then m.aliases else none } } := rfl

/-! ### Claims -/

/-- C2: `addOrUpdate(spec)` followed by `load()` yields a document whose
entry under `spec.name` has command string `synthesize(spec)`. -/
theorem claim2_roundtrip (m : ModelConfig) (tsFull tsClock : String) (st : SysState) :
    ∃ e : LaunchEntry,
      lookupModel (load_config (add_model_config m tsFull tsClock st)) m.name = some e ∧
      e.cmd = build_model_command m := by
  refine ⟨{ cmd := build_model_command m
            aliases := if pyTruthyList m.aliases then m.aliases else none }, ?_, rfl⟩
  rw [load_config_add]
  unfold lookupModel
  rw [find?_dictUpsert]
  rfl

/-- C3: with no configuration file present, the backup endpoint does not
answer 404: the `HTTPException(404)` raised inside the handler's `try`
is caught by its blanket `except Exception` and re-raised as 500; with a
file present, the file's raw bytes are returned unchanged. -/
theorem claim3_backup_endpoint :
    backup_config { configFile := none, backups := [], logs := [] } = Except.error 500 ∧
    (∀ (c : FileContent) (b : List (String × FileContent)) (l : List String),
      backup_config { configFile := some c, backups := b, logs := l } = Except.ok c) :=
  ⟨rfl, fun _ _ _ => rfl⟩

/-- C6: `load()` never fails: missing configuration file or a parse
failure both yield the empty document. -/
theorem claim6_load_never_fails (st : SysState)
    (h : st.configFile = none ∨ st.configFile = some FileContent.invalid) :
    load_config st = { models := [] } := by
  rcases h with h | h <;> simp [load_config, h]

/-- Witness for C6 at a concrete state with an unparseable file. -/
theorem claim6_witness :
    load_config { configFile := some FileContent.invalid, backups := [], logs := [] } =
      { models := [] } :=
  claim6_load_never_fails _ (Or.inr rfl)

/-- C7: every append leaves at most 1000 entries, dropping only the
oldest entries and keeping the appended one last; immediately after a
clear, the log holds exactly the one "cleared" record. -/
theorem claim7_log_invariants :
    (∀ (logs : List String) (tsClock msg : String),
      (log_activity tsClock msg logs).length ≤ 1000) ∧
    (∀ (logs : List String) (tsClock msg : String),
      ∃ k, log_activity tsClock msg logs = logs.drop k ++ [tsClock ++ " " ++ msg]) ∧
    (∀ (tsClock : String) (st : SysState),
      (clear_logs tsClock st).logs = [tsClock ++ " " ++ "Logs cleared by user"]) :=
  ⟨fun logs ts msg => log_activity_length_le ts msg logs,
   fun logs ts msg => log_activity_eq_drop ts msg logs,
   fun _ _ => rfl⟩

/-- C9: two successive `addOrUpdate` calls with the same spec (at any
wall-clock times) leave the same configuration document as one call. -/
theorem claim9_add_idempotent (m : ModelConfig) (ts1 ts2 ts3 ts4 : String) (st : SysState) :
    load_config (add_model_config m ts3 ts4 (add_model_config m ts1 ts2 st)) =
      load_config (add_model_config m ts1 ts2 st) := by
  rw [load_config_add, load_config_add]
  exact congrArg ConfigDoc.mk (dictUpsert_idem _ _ _)

/-- C10: a thread count supplied as 0 is falsy in Python's `if
config.threads:`, so the `-t` flag is omitted exactly as when the field
is absent. -/
theorem claim10_threads_zero (c : ModelConfig) :
    build_model_command { c with threads := some 0 } =
      build_model_command { c with threads := none } := rfl

/-- C5: removing an absent name answers 404 and leaves the whole state
(file, backups, logs) untouched; removing a present name succeeds,
deletes exactly that key and saves the resulting document. -/
theorem claim5_remove (model_name tsFull tsClock : String) (st : SysState) :
    ((load_config st).models.any (fun p => p.1 == model_name) = false →
      remove_model_config model_name tsFull tsClock st = (st, some 404)) ∧
    ((load_config st).models.any (fun p => p.1 == model_name) = true →
      (remove_model_config model_name tsFull tsClock st).2 = none ∧
      ((remove_model_config model_name tsFull tsClock st).1).configFile =
        some (FileContent.doc
          { models := (load_config st).models.filter (fun p => !(p.1 == model_name)) })) := by
  constructor
  · intro h
    unfold remove_model_config
    rw [if_neg (by rw [h]; exact Bool.false_ne_true)]
  · intro h
    unfold remove_model_config
    rw [if_pos h]
    exact ⟨rfl, rfl⟩

/-- Witness for C5: a 404 on an absent name, success on a present one. -/
theorem claim5_witness :
    remove_model_config "b" "20250101-120000" "12:00:00"
        { configFile := some (FileContent.doc { models := [("a", { cmd := "x" })] })
          backups := [], logs := [] } =
      ({ configFile := some (FileContent.doc { models := [("a", { cmd := "x" })] })
         backups := [], logs := [] }, some 404) ∧
    (remove_model_config "a" "20250101-120000" "12:00:00"
        { configFile := some (FileContent.doc { models := [("a", { cmd := "x" })] })
          backups := [], logs := [] }).2 = none :=
  ⟨(claim5_remove "b" "20250101-120000" "12:00:00" _).1 (by decide),
   ((claim5_remove "a" "20250101-120000" "12:00:00" _).2 (by decide)).1⟩

/-- C4 counterexample: when a second save happens within the same
second, the backup name collides and `shutil.copy2` overwrites the
existing backup: the save creates zero new backup files even though a
configuration file existed. Before the save there is one backup file
(holding `FileContent.empty`); afterwards there is still exactly one,
its content clobbered by the prior config file. -/
theorem claim4_cex :
    (save_config "20250101-120000" "12:00:00" { models := [] }
        { configFile := some (FileContent.doc { models := [] })
          backups := [("config-backup-20250101-120000.yaml", FileContent.empty)]
          logs := [] }).backups =
      [("config-backup-20250101-120000.yaml", FileContent.doc { models := [] })] := by
  decide

/-- C4 (amended): when a configuration file exists and no backup already
bears the current timestamp's name, save creates exactly one new backup
file, named `config-backup-<ts>.yaml`, holding the prior file's content
verbatim; a save with no configuration file present creates no backup. -/
theorem claim4_save_backup (tsFull tsClock : String) (d : ConfigDoc) (st : SysState) :
    (∀ prior, st.configFile = some prior →
      st.backups.any (fun p => p.1 == "config-backup-" ++ tsFull ++ ".yaml") = false →
      (save_config tsFull tsClock d st).backups =
        st.backups ++ [("config-backup-" ++ tsFull ++ ".yaml", prior)]) ∧
    (st.configFile = none →
      (save_config tsFull tsClock d st).backups = st.backups) := by
  constructor
  · intro prior hf hfresh
    simp only [save_config, hf]
    unfold dictUpsert
    rw [if_neg (by rw [hfresh]; exact Bool.false_ne_true)]
  · intro hf
    simp only [save_config, hf]

/-- Witness for C4: a first-ever backup is created with the prior file's
content, and a save on a missing file creates none. -/
theorem claim4_witness :
    (save_config "20250101-120000" "12:00:00" { models := [] }
        { configFile := some FileContent.empty, backups := [], logs := [] }).backups =
      [("config-backup-20250101-120000.yaml", FileContent.empty)] ∧
    (save_config "20250101-120000" "12:00:00" { models := [] }
        { configFile := none, backups := [], logs := [] }).backups = [] :=
  ⟨(claim4_save_backup "20250101-120000" "12:00:00" { models := [] } _).1
      FileContent.empty rfl (by decide),
   (claim4_save_backup "20250101-120000" "12:00:00" { models := [] } _).2 rfl⟩

theorem isPre_append {α : Type} [BEq α] [LawfulBEq α] :
    ∀ (l1 l2 : List α), l1.isPrefixOf (l1 ++ l2) = true
  | [], _ => by simp [List.isPrefixOf]
  | a :: t, l2 => by simp [List.isPrefixOf, isPre_append t l2]

/-- A literal u followed by anything is a different string from t
whenever u does not begin t. -/
theorem append_ne_of_not_pre (u x t : String) (h : u.data.isPrefixOf t.data = false) :
    u ++ x ≠ t := by
  intro he
  have hd : t.data = u.data ++ x.data := by
    rw [← he, String.data_append]
  rw [hd, isPre_append u.data x.data] at h
  exact Bool.noConfusion h

/-- Flipped form used to discharge membership disjuncts. -/
theorem ne_lit_append (u t : String) (h : u.data.isPrefixOf t.data = false) :
    ∀ x : String, t ≠ u ++ x :=
  fun x => (append_ne_of_not_pre u x t h).symm

/-- C8 counterexample: with `advanced = "--mlock"` and `mlock = false`
the synthesized command nevertheless contains the token `--mlock`, so
the containment-iff as stated fails for free-text fields. -/
theorem claim8_cex :
    strContains
        (build_model_command
          { name := "x", file_path := "f", advanced := some "--mlock" })
        "--mlock" = true ∧
    ModelConfig.mlock
        { name := "x", file_path := "f", advanced := some "--mlock" } = false :=
  ⟨by decide, rfl⟩

set_option maxHeartbeats 1000000 in
/-- C8 (amended): provided the free-text fields (`numa`, `advanced`) do
not themselves spell the flag tokens, the emitted parts contain
`--mlock` iff `mlock` is true and `--flash-attn` iff `flash_attn` is
true; and a truthy `advanced` is emitted trimmed, after all structured
flags and immediately before the port/host segment. -/
theorem claim8_flag_emission (c : ModelConfig)
    (h1 : c.numa.getD "" ≠ "--mlock")
    (h2 : c.numa.getD "" ≠ "--flash-attn")
    (h3 : pyStrip (c.advanced.getD "") ≠ "--mlock")
    (h4 : pyStrip (c.advanced.getD "") ≠ "--flash-attn") :
    ("--mlock" ∈ build_model_parts c ↔ c.mlock = true) ∧
    ("--flash-attn" ∈ build_model_parts c ↔ c.flash_attn = true) ∧
    (pyTruthyStr c.advanced = true →
      ∃ ps, build_model_parts c =
        ps ++ [pyStrip (c.advanced.getD ""), "--port $\x7bPORT\x7d", "--host 0.0.0.0"]) := by
  have hA := ne_lit_append "-m " "--mlock" (by decide)
  have hB := ne_lit_append "-ngl " "--mlock" (by decide)
  have hC := ne_lit_append "-c " "--mlock" (by decide)
  have hD := ne_lit_append "-b " "--mlock" (by decide)
  have hE := ne_lit_append "-t " "--mlock" (by decide)
  have hF := ne_lit_append "-ub " "--mlock" (by decide)
  have hG := ne_lit_append "--temp " "--mlock" (by decide)
  have hH := ne_lit_append "--top-p " "--mlock" (by decide)
  have hI := ne_lit_append "--top-k " "--mlock" (by decide)
  have hJ := ne_lit_append "--repeat-penalty " "--mlock" (by decide)
  have hK : ("--mlock" : String) ≠ "/app/llama-server" := by decide
  have hL : ("--mlock" : String) ≠ "--flash-attn" := by decide
  have hM : ("--mlock" : String) ≠ "--port $\x7bPORT\x7d" := by decide
  have hN : ("--mlock" : String) ≠ "--host 0.0.0.0" := by decide
  have fA := ne_lit_append "-m " "--flash-attn" (by decide)
  have fB := ne_lit_append "-ngl " "--flash-attn" (by decide)
  have fC := ne_lit_append "-c " "--flash-attn" (by decide)
  have fD := ne_lit_append "-b " "--flash-attn" (by decide)
  have fE := ne_lit_append "-t " "--flash-attn" (by decide)
  have fF := ne_lit_append "-ub " "--flash-attn" (by decide)
  have fG := ne_lit_append "--temp " "--flash-attn" (by decide)
  have fH := ne_lit_append "--top-p " "--flash-attn" (by decide)
  have fI := ne_lit_append "--top-k " "--flash-attn" (by decide)
  have fJ := ne_lit_append "--repeat-penalty " "--flash-attn" (by decide)
  have fK : ("--flash-attn" : String) ≠ "/app/llama-server" := by decide
  have fL : ("--flash-attn" : String) ≠ "--mlock" := by decide
  have fM : ("--flash-attn" : String) ≠ "--port $\x7bPORT\x7d" := by decide
  have fN : ("--flash-attn" : String) ≠ "--host 0.0.0.0" := by decide
  refine ⟨?_, ?_, ?_⟩
  · rw [build_model_parts_eq c]
    by_cases ht : pyTruthyInt c.threads = true <;>
    by_cases hm : c.mlock = true <;>
    by_cases hn : pyTruthyStr c.numa = true <;>
    by_cases hfa : c.flash_attn = true <;>
    by_cases hav : pyTruthyStr c.advanced = true <;>
    simp [ht, hm, hn, hfa, hav, hA, hB, hC, hD, hE, hF, hG, hH, hI, hJ,
      hK, hL, hM, hN, Ne.symm h1, Ne.symm h3]
  · rw [build_model_parts_eq c]
    by_cases ht : pyTruthyInt c.threads = true <;>
    by_cases hm : c.mlock = true <;>
    by_cases hn : pyTruthyStr c.numa = true <;>
    by_cases hfa : c.flash_attn = true <;>
    by_cases hav : pyTruthyStr c.advanced = true <;>
    simp [ht, hm, hn, hfa, hav, fA, fB, fC, fD, fE, fF, fG, fH, fI, fJ,
      fK, fL, fM, fN, Ne.symm h2, Ne.symm h4]
  · intro hav
    rw [build_model_parts_eq c, if_pos hav]
    refine ⟨["/app/llama-server", "-m " ++ c.file_path, "-ngl " ++ toString c.ngl,
      "-c " ++ toString c.ctx, "-b " ++ toString c.batch] ++
      (if pyTruthyInt c.threads then ["-t " ++ toString (c.threads.getD 0)] else []) ++
      ["-ub " ++ toString c.ubatch, "--temp " ++ c.temp, "--top-p " ++ c.top_p,
       "--top-k " ++ toString c.top_k, "--repeat-penalty " ++ c.repeat_penalty] ++
      (if c.mlock then ["--mlock"] else []) ++
      (if pyTruthyStr c.numa then [c.numa.getD ""] else []) ++
      (if c.flash_attn then ["--flash-attn"] else []), ?_⟩
    rw [List.append_assoc]
    rfl

/-- Witness for C8 at a concrete spec with `mlock = true`, benign
`advanced` text, and no `numa`. -/
theorem claim8_witness :
    ("--mlock" ∈ build_model_parts
        { name := "w", file_path := "g", mlock := true, advanced := some " --verbose " } ↔
      true = true) ∧
    ("--flash-attn" ∈ build_model_parts
        { name := "w", file_path := "g", mlock := true, advanced := some " --verbose " } ↔
      false = true) ∧
    (pyTruthyStr (some " --verbose ") = true → ∃ ps,
      build_model_parts
          { name := "w", file_path := "g", mlock := true, advanced := some " --verbose " } =
        ps ++ [pyStrip " --verbose ", "--port $\x7bPORT\x7d", "--host 0.0.0.0"]) :=
  claim8_flag_emission
    { name := "w", file_path := "g", mlock := true, advanced := some " --verbose " }
    (by decide) (by decide) (by decide) (by decide)

theorem strEndsWith_intercalate2 (l : List String) (a b : String) (h : l ≠ []) :
    strEndsWith (String.intercalate " " (l ++ [a, b])) (a ++ " " ++ b) = true := by
  match l with
  | [] => exact absurd rfl h
  | x :: l1 => exact strEndsWith_intercalate x a b l1

/-- Every synthesized command ends with the port/host segment. -/
theorem command_ends_port_host (c : ModelConfig) :
    strEndsWith (build_model_command c) "--port $\x7bPORT\x7d --host 0.0.0.0" = true := by
  have hpat : ("--port $\x7bPORT\x7d" : String) ++ " " ++ "--host 0.0.0.0" =
      "--port $\x7bPORT\x7d --host 0.0.0.0" := rfl
  rw [← hpat]
  show strEndsWith (String.intercalate " " (build_model_parts c)) _ = true
  rw [build_model_parts_eq c]
  refine strEndsWith_intercalate2 _ _ _ ?_
  intro hnil
  have hlen := congrArg List.length hnil
  simp [List.length_append] at hlen

/-- C1: the llama3 scenario produces the expected flag substrings and
port/host ending; in general the flags are emitted in the fixed order
model path, GPU layers, context, batch, optional threads, micro-batch,
temperature, top-p, top-k, repeat penalty, and the command always ends
with the port placeholder and bind-all host segment. -/
theorem claim1_command_synthesis :
    (strContains (build_model_command
        { name := "llama3", file_path := "/models/llama3.gguf", ngl := 99 })
        "-m /models/llama3.gguf" = true ∧
     strContains (build_model_command
        { name := "llama3", file_path := "/models/llama3.gguf", ngl := 99 })
        "-ngl 99" = true ∧
     strContains (build_model_command
        { name := "llama3", file_path := "/models/llama3.gguf", ngl := 99 })
        "-c 4096" = true ∧
     strContains (build_model_command
        { name := "llama3", file_path := "/models/llama3.gguf", ngl := 99 })
        "-b 2048" = true ∧
     strEndsWith (build_model_command
        { name := "llama3", file_path := "/models/llama3.gguf", ngl := 99 })
        "--port $\x7bPORT\x7d --host 0.0.0.0" = true) ∧
    (∀ c : ModelConfig,
      build_model_parts c =
        ["/app/llama-server", "-m " ++ c.file_path, "-ngl " ++ toString c.ngl,
         "-c " ++ toString c.ctx, "-b " ++ toString c.batch] ++
        (if pyTruthyInt c.threads then ["-t " ++ toString (c.threads.getD 0)] else []) ++
        ["-ub " ++ toString c.ubatch, "--temp " ++ c.temp, "--top-p " ++ c.top_p,
         "--top-k " ++ toString c.top_k, "--repeat-penalty " ++ c.repeat_penalty] ++
        (if c.mlock then ["--mlock"] else []) ++
        (if pyTruthyStr c.numa then [c.numa.getD ""] else []) ++
        (if c.flash_attn then ["--flash-attn"] else []) ++
        (if pyTruthyStr c.advanced then [pyStrip (c.advanced.getD "")] else []) ++
        ["--port $\x7bPORT\x7d", "--host 0.0.0.0"] ∧
      strEndsWith (build_model_command c) "--port $\x7bPORT\x7d --host 0.0.0.0" = true) :=
  ⟨⟨by decide, by decide, by decide, by decide, by decide⟩,
   fun c => ⟨build_model_parts_eq c, command_ends_port_host c⟩⟩
